import Mathlib

/-!
Verification of the storefront-theme client components against their
natural-language specification.

Shallow embedding conventions:
* JS `Map<number, string>` is a `List (Int × String)` keyed by its first
  component; `Map.set` replaces any existing binding.
* A DOM `dataset` string that is read with `Number(...)` is embedded as
  `Option Int` at the parsed level, with `none` standing for `NaN`
  (comparisons against `NaN` are `false`, as in JS); an attribute that may
  be absent or the empty string (both falsy under `!x`) adds an outer
  `Option`.
* Real-valued gesture arithmetic is embedded over `ℚ`.
-/

/-! ## PaginatedList (assets/paginated-list.js) -/

/-- Transient per-element state of a `PaginatedList` instance:
the `pages` cache (`Map<number, string>` from page number to raw HTML
fragment text), the two pending-page resolve callbacks, whether the
infinity-scroll `IntersectionObserver` is active, and whether the
document-level `FilterUpdate` listener is attached. -/
structure PLState where
  pages : List (Int × String)
  resolveNext : Bool
  resolvePrev : Bool
  observerActive : Bool
  filterListenerAttached : Bool
  deriving Repr, DecidableEq

/-- DOM environment a `PaginatedList` reads: `grid.dataset.lastPage`
(outer `none`: grid missing, attribute missing or empty string, all falsy;
`some none`: present but `Number(...)` is `NaN`; `some (some n)`: numeric)
and the `data-page` numbers of the `cards` refs in DOM order
(`none`: the `cards` ref is not an array). -/
structure PLEnv where
  lastPage : Option (Option Int)
  cards : Option (List Int)
  deriving Repr, DecidableEq

/-- JS comparison `p > n` where `n` may be `NaN`: any comparison with
`NaN` is `false`. -/
def jsNumGt (p : Int) (n : Option Int) : Bool :=
  match n with
  | some m => decide (m < p)
  | none => false

/-- Source `#shouldUsePage(pageInfo)`: `false` when `pageInfo` is absent,
when `data-last-page` is falsy, when `page < 1`, or when
`page > Number(lastPage)`; `true` otherwise. -/
def plShouldUsePage (env : PLEnv) (pageInfo : Option Int) : Bool :=
  match pageInfo with
  | none => false
  | some page =>
    match env.lastPage with
    | none => false
    | some lastPage =>
      if page < 1 then false
      else if jsNumGt page lastPage then false
      else true

/-- JS `Map.set`: bind `k` to `v`, replacing any existing binding. -/
def pagesSet (m : List (Int × String)) (k : Int) (v : String) : List (Int × String) :=
  (k, v) :: m.filter (fun kv => !(kv.1 = k : Bool))

/-- Source `#fetchSpecificPage(pageNumber)`: re-checks `#shouldUsePage`
and, only if it passes, fetches the section HTML (`content` is the fetched
fragment) and stores it in `pages`. -/
def plFetchSpecificPage (env : PLEnv) (st : PLState) (pageNumber : Int) (content : String) : PLState :=
  if plShouldUsePage env (some pageNumber) then
    { st with pages := pagesSet st.pages pageNumber content }
  else st

/-- Source `#handleFilterUpdate` (synchronous part): clears the `pages`
cache, fires and clears both pending-page resolvers; the re-observation
and next-page refetch happen later from a `MutationObserver` callback. -/
def plHandleFilterUpdate (st : PLState) : PLState :=
  { st with pages := [], resolveNext := false, resolvePrev := false }

/-- Source `disconnectedCallback`: disconnects the infinity-scroll
observer and removes the document `FilterUpdate` listener. It performs no
other cleanup. -/
def plDisconnectedCallback (st : PLState) : PLState :=
  { st with observerActive := false, filterListenerAttached := false }

/-- Source `#getPage(type)`: `cards[0]` for `previous`, `cards[length-1]`
for `next`; absent array or absent target card yields nothing; otherwise
the target card's `data-page` minus resp. plus one. -/
def plGetPage (env : PLEnv) (isPrevious : Bool) : Option Int :=
  match env.cards with
  | none => none
  | some cs =>
    match (if isPrevious then cs.head? else cs.getLast?) with
    | none => none
    | some p => some (if isPrevious then p - 1 else p + 1)

/-- Source `#fetchPage(type)` issues a network fetch iff `#getPage`
returns a page object and `#shouldUsePage` accepts it. -/
def plFetchPageIssues (env : PLEnv) (isPrevious : Bool) : Bool :=
  match plGetPage env isPrevious with
  | none => false
  | some p => plShouldUsePage env (some p)

/-! ## Outstanding-fetch bookkeeping (abort controllers)

`FetchLifecycle` tracks the set of in-flight (started, not yet settled or
aborted) fetches of one component instance, the fetch currently owned by
the instance's abort controller field, and a fresh-id counter. -/

structure FetchLifecycle where
  inFlight : List Nat
  controller : Option Nat
  nextId : Nat
  deriving Repr, DecidableEq

def initFetchLifecycle : FetchLifecycle := ⟨[], none, 0⟩

/-- Events in a fetch-issuing component's life: issuing a new fetch, or
the settling (promise handler run) of the fetch with a given id. -/
inductive FetchOp where
  | issue
  | settle (id : Nat)
  deriving Repr, DecidableEq

/-- VariantPicker `fetchUpdatedSection` lifecycle step: on issue, first
`#abortController?.abort()` (removing the owned fetch from flight), then
store a fresh controller and start its fetch; the `.then`/`.catch`
handlers never touch `#abortController`, so settling only removes the
fetch from flight. -/
def vpFetchStep (s : FetchLifecycle) : FetchOp → FetchLifecycle
  | .issue =>
    let aborted := match s.controller with
      | some id => s.inFlight.erase id
      | none => s.inFlight
    ⟨s.nextId :: aborted, some s.nextId, s.nextId + 1⟩
  | .settle id => ⟨s.inFlight.erase id, s.controller, s.nextId⟩

/-- QuickAddComponent `fetchProductPage` lifecycle step: issue is as in
VariantPicker, but the `finally` block sets `#abortController = null`
whenever any call of the method settles — including a call whose own
fetch was already aborted by a newer one. -/
def qaFetchStep (s : FetchLifecycle) : FetchOp → FetchLifecycle
  | .issue =>
    let aborted := match s.controller with
      | some id => s.inFlight.erase id
      | none => s.inFlight
    ⟨s.nextId :: aborted, some s.nextId, s.nextId + 1⟩
  | .settle id => ⟨s.inFlight.erase id, none, s.nextId⟩

def vpFetchRun (ops : List FetchOp) : FetchLifecycle :=
  ops.foldl vpFetchStep initFetchLifecycle

def qaFetchRun (ops : List FetchOp) : FetchLifecycle :=
  ops.foldl qaFetchStep initFetchLifecycle

/-- PaginatedList `startFetch`: a page fetch begins with no abort
controller involved; nothing is ever aborted. -/
def plStartFetch (s : FetchLifecycle) : FetchLifecycle :=
  ⟨s.nextId :: s.inFlight, s.controller, s.nextId + 1⟩

/-- Source `connectedCallback` fetch behaviour: it calls
`#fetchPage('next')` and then `#fetchPage('previous')`; each runs
synchronously up to its awaited network call, so both fetches are issued
before either can settle. -/
def plConnectedCallbackFetches (env : PLEnv) (s : FetchLifecycle) : FetchLifecycle :=
  let s1 := if plFetchPageIssues env false then plStartFetch s else s
  if plFetchPageIssues env true then plStartFetch s1 else s1

/-! ## VariantPicker option groups (assets/variant-picker.js) -/

/-- One radio input of an option group: the `data-current-checked` and
`data-previous-checked` dataset flags (embedded as the booleans they
encode), the native `checked` property, and its parent element's
`offsetWidth` (0 when the parent is missing). -/
structure Radio where
  currentChecked : Bool
  previousChecked : Bool
  checked : Bool
  parentWidth : Nat
  deriving Repr, DecidableEq

/-- Per-fieldset state handled by `updateSelectedOption`: the radios of
the group, the `#checkedIndices` entry for the group, and the
`--pill-width-current` / `--pill-width-previous` CSS custom properties on
the fieldset (in px, `none` when never set). -/
structure OptionGroup where
  radios : List Radio
  checkedIndices : List Nat
  pillWidthCurrent : Option Nat
  pillWidthPrevious : Option Nat
  deriving Repr, DecidableEq

/-- In-place update of the element at index `i`, a no-op out of bounds
(mirroring the JS `if (radios[i])` guards before each mutation). -/
def modifyIdx {α : Type} : List α → Nat → (α → α) → List α
  | [], _, _ => []
  | a :: as, 0, f => f a :: as
  | a :: as, n + 1, f => a :: modifyIdx as n f

/-- Source `updateSelectedOption` on a checked radio of one fieldset,
given the parsed `data-input-index` of the target (the branch where
fieldset, radios and checkedIndices all exist):
1. clear `data-previous-checked` on the radios at the current two indices;
2. `checkedIndices.unshift(inputIndex)` then truncate to length 2;
3. mark the new current radio and set `--pill-width-current`;
4. mark the new previous radio (clearing its current flag) and set
   `--pill-width-previous`;
5. finally `target.checked = true`.
Step 1 is split off as `clearPreviousFlags`. -/
def clearPreviousFlags (radios : List Radio) (checkedIndices : List Nat) : List Radio :=
  let rs1 := match checkedIndices.head? with
    | some currentIndex => modifyIdx radios currentIndex (fun r => { r with previousChecked := false })
    | none => radios
  match checkedIndices[1]? with
  | some previousIndex => modifyIdx rs1 previousIndex (fun r => { r with previousChecked := false })
  | none => rs1

def updateSelectedOption (g : OptionGroup) (inputIndex : Nat) : OptionGroup :=
  let rs2 := clearPreviousFlags g.radios g.checkedIndices
  let newIndices := (inputIndex :: g.checkedIndices).take 2
  let newCurrentIndex := inputIndex
  let stepCurrent : List Radio × Option Nat :=
    match rs2[newCurrentIndex]? with
    | some r =>
      (modifyIdx rs2 newCurrentIndex (fun r => { r with currentChecked := true }), some r.parentWidth)
    | none => (rs2, g.pillWidthCurrent)
  let rs3 := stepCurrent.1
  let stepPrevious : List Radio × Option Nat :=
    match newIndices[1]? with
    | some newPreviousIndex =>
      match rs3[newPreviousIndex]? with
      | some r =>
        (modifyIdx rs3 newPreviousIndex
          (fun r => { r with previousChecked := true, currentChecked := false }), some r.parentWidth)
      | none => (rs3, g.pillWidthPrevious)
    | none => (rs3, g.pillWidthPrevious)
  let rs4 := stepPrevious.1
  { radios := modifyIdx rs4 inputIndex (fun r => { r with checked := true }),
    checkedIndices := newIndices,
    pillWidthCurrent := stepCurrent.2,
    pillWidthPrevious := stepPrevious.2 }

/-! ## DisclosureCustom (assets/disclosure-custom.js) -/

/-- Observable state touched by `toggleDisclosure`: the trigger's
`aria-expanded` and `aria-label` attributes (`none` = absent) and the
content's `inert` property. -/
structure DisclosureState where
  ariaExpanded : Option String
  ariaLabel : Option String
  inert : Bool
  deriving Repr, DecidableEq

/-- The trigger's `data-disclosure-open` / `data-disclosure-close`
dataset entries (`none` = absent). -/
structure DisclosureData where
  disclosureOpen : Option String
  disclosureClose : Option String
  deriving Repr, DecidableEq

/-- JS template interpolation of a possibly-undefined value. -/
def jsTemplateStr : Option String → String
  | some s => s
  | none => "undefined"

/-- Source `toggleDisclosure`: `expanded` is
`trigger.matches('[aria-expanded="true"]')`; the trigger gets
`aria-expanded = String(!expanded)` and an `aria-label` from the dataset,
and the content gets `inert = expanded`. -/
def toggleDisclosure (d : DisclosureData) (st : DisclosureState) : DisclosureState :=
  let expanded : Bool := st.ariaExpanded = some "true"
  { ariaExpanded := some (if expanded then "false" else "true"),
    ariaLabel := some (jsTemplateStr (if expanded then d.disclosureOpen else d.disclosureClose)),
    inert := expanded }

/-! ## QuantitySelectorComponent (assets/component-quantity-selector.js)

The input's `min`, `max` and `value` are strings read through
`parseInt`; they are embedded at the parsed level as `Option Int`, with
`none` for a value whose `parseInt` is `NaN` (empty or non-numeric) —
which for `min`/`max` coincides with the attribute being falsy in the
`&& min` / `&& max` guards. -/

/-- JS `parseInt(value) < parseInt(min) && min`: false when either side
is `NaN` or the `min` attribute is empty. -/
def jsLtOpt (v m : Option Int) : Bool :=
  match v, m with
  | some a, some b => decide (a < b)
  | _, _ => false

/-- JS `parseInt(value) > parseInt(max) && max`: false when either side
is `NaN` or the `max` attribute is empty. -/
def jsGtOpt (v m : Option Int) : Bool :=
  match v, m with
  | some a, some b => decide (b < a)
  | _, _ => false

/-- Source `#checkQuantityRules`: destructures `min`, `max`, `value`
once, writes `value = min` when `value < min`, then writes `value = max`
when the ORIGINAL value exceeds `max`. -/
def checkQuantityRules (mi ma value : Option Int) : Option Int :=
  let afterMin := if jsLtOpt value mi then mi else value
  if jsGtOpt value ma then ma else afterMin

/-- The public operations: `increaseQuantity` / `decreaseQuantity` run the
native `stepUp()` / `stepDown()` (whose numeric result is the operation's
parameter) and `setQuantity` copies the raw entered value into the input
(`none` when it does not parse as an integer). -/
inductive QuantityOp where
  | increase (stepped : Int)
  | decrease (stepped : Int)
  | set (entered : Option Int)
  deriving Repr, DecidableEq

/-- The input's value right after the operation's raw update, before
`#onQuantityChange` runs. -/
def rawValueAfter (_st : Option Int) (op : QuantityOp) : Option Int :=
  match op with
  | .increase s => some s
  | .decrease s => some s
  | .set e => e

/-- One public operation followed by `#onQuantityChange`: the rules check
rewrites the input's value, and the dispatched
`QuantitySelectorUpdateEvent` carries `parseInt` of the final value
(which at this parsed level is the final value itself). Returns
(final input value, event value). -/
def applyQuantityOp (mi ma st : Option Int) (op : QuantityOp) : Option Int × Option Int :=
  let v := checkQuantityRules mi ma (rawValueAfter st op)
  (v, v)

/-! ## DragZoomWrapper (zoom gestures, src/unnamed/part_004)

Coordinates, distances and scales are embedded over `ℚ` (idealised real
arithmetic; in `ℚ` a division by zero yields 0). The distance between two
touches, computed by `getDistance` with a square root in the source, is
abstracted as a nonnegative rational input of the gesture; the only place
a distance is compared rather than divided — the drag threshold — is
embedded on squared distances, which is equivalent since the square root
is monotone. -/

def MIN_ZOOM : ℚ := 1

def MAX_ZOOM : ℚ := 5

def DEFAULT_ZOOM : ℚ := 3 / 2

def DRAG_THRESHOLD : ℚ := 10

/-- Modelled from the spec: the `clamp` helper lives in the theme's
`utilities.js`, which is not among the provided sources; per its uses
("Keep scale between MIN_ZOOM (1) and MAX_ZOOM (5)") it is the standard
clamp of a value into a closed interval. -/
def clamp (v lo hi : ℚ) : ℚ := min (max v lo) hi

/-- Private fields of a `DragZoomWrapper` instance, plus the mirrored
`--drag-zoom-*` CSS custom properties. -/
structure ZoomState where
  scale : ℚ
  initialDistance : ℚ
  startScale : ℚ
  translate : ℚ × ℚ
  startPosition : ℚ × ℚ
  startTranslate : ℚ × ℚ
  isDragging : Bool
  lastTapTime : ℚ
  lastTapPosition : Option (ℚ × ℚ)
  hasDraggedBeyondThreshold : Bool
  hasManualZoom : Bool
  cssScale : ℚ
  cssTranslate : ℚ × ℚ
  deriving Repr, DecidableEq

/-- Field initialisers of `DragZoomWrapper`. -/
def initZoomState : ZoomState :=
  { scale := DEFAULT_ZOOM
    initialDistance := 0
    startScale := DEFAULT_ZOOM
    translate := (0, 0)
    startPosition := (0, 0)
    startTranslate := (0, 0)
    isDragging := false
    lastTapTime := 0
    lastTapPosition := none
    hasDraggedBeyondThreshold := false
    hasManualZoom := false
    cssScale := DEFAULT_ZOOM
    cssTranslate := (0, 0) }

/-- Layout environment the wrapper reads: `clientWidth`/`clientHeight`,
the bounding rect of the wrapper, the image's natural dimensions (0 when
not loaded) and whether `querySelector('img')` finds an image. -/
structure ZoomEnv where
  clientWidth : ℚ
  clientHeight : ℚ
  rectWidth : ℚ
  rectHeight : ℚ
  naturalWidth : ℚ
  naturalHeight : ℚ
  hasImage : Bool
  deriving Repr, DecidableEq

/-- Source `#constrainTranslation`: bails out when the client box is
empty or there is no image; clamps the scale into
`[MIN_ZOOM, MAX_ZOOM]`; at minimum zoom zeroes the translation and
returns; otherwise computes the letterboxed (object-fit contain) image
box, the overflow of the scaled image over the wrapper, and clamps each
translation component into plus-or-minus half the overflow divided by the
scale, finally mirroring the values into the CSS custom properties. The
letterbox-and-clamp computation is split off as `constrainedTranslate`;
`constrainTranslation` below assembles the whole source function. -/
def constrainedTranslate (env : ZoomEnv) (scale : ℚ) (t : ℚ × ℚ) : ℚ × ℚ :=
  let naturalW := if 0 < env.naturalWidth ∧ 0 < env.naturalHeight then env.naturalWidth else env.rectWidth
  let naturalH := if 0 < env.naturalWidth ∧ 0 < env.naturalHeight then env.naturalHeight else env.rectWidth
  let imageAspect := naturalW / naturalH
  let wrapperAspect := env.rectWidth / env.rectHeight
  let actualImageWidth := if wrapperAspect < imageAspect then env.rectWidth else env.rectHeight * imageAspect
  let actualImageHeight := if wrapperAspect < imageAspect then env.rectWidth / imageAspect else env.rectHeight
  let scaledImageWidth := actualImageWidth * scale
  let scaledImageHeight := actualImageHeight * scale
  let horizontalOverflow := max 0 (scaledImageWidth - env.rectWidth)
  let verticalOverflow := max 0 (scaledImageHeight - env.rectHeight)
  let maxTranslateX := horizontalOverflow / 2 / scale
  let maxTranslateY := verticalOverflow / 2 / scale
  (clamp t.1 (-maxTranslateX) maxTranslateX, clamp t.2 (-maxTranslateY) maxTranslateY)

def constrainTranslation (env : ZoomEnv) (st : ZoomState) : ZoomState :=
  if env.clientWidth = 0 ∨ env.clientHeight = 0 ∨ env.hasImage = false then st
  else
    if clamp st.scale MIN_ZOOM MAX_ZOOM ≤ MIN_ZOOM then
      { st with scale := clamp st.scale MIN_ZOOM MAX_ZOOM, translate := (0, 0) }
    else
      { st with
        scale := clamp st.scale MIN_ZOOM MAX_ZOOM
        translate := constrainedTranslate env (clamp st.scale MIN_ZOOM MAX_ZOOM) st.translate
        cssScale := clamp st.scale MIN_ZOOM MAX_ZOOM
        cssTranslate := constrainedTranslate env (clamp st.scale MIN_ZOOM MAX_ZOOM) st.translate }

/-- Source `#updateTransform` (the body of the requested animation
frame): constrain, then write the CSS custom properties. -/
def updateTransform (env : ZoomEnv) (st : ZoomState) : ZoomState :=
  let st1 := constrainTranslation env st
  { st1 with cssScale := st1.scale, cssTranslate := st1.translate }

/-- Source `#startZoomGestureFromTouches`: record the initial pinch
distance and the scale the pinch started from. -/
def startZoomGesture (d : ℚ) (st : ZoomState) : ZoomState :=
  { st with initialDistance := d, startScale := st.scale, isDragging := false }

/-- Source `#storeTapInfo` followed by `#startDragGestureFromTouch` (the
single-touch branch of `#handleTouchStart`). -/
def startDragGesture (t x y : ℚ) (st : ZoomState) : ZoomState :=
  { st with
    lastTapTime := t
    lastTapPosition := some (x, y)
    startPosition := (x, y)
    startTranslate := st.translate
    isDragging := true
    hasDraggedBeyondThreshold := false }

/-- Source `#processZoomGesture` (before the deferred transform update):
scale is the distance ratio times the start scale, clamped into
`[MIN_ZOOM, MAX_ZOOM]`; the translation is corrected to keep the pinch
midpoint stationary; manual zoom is flagged and dragging cancelled. -/
def processZoomGesture (env : ZoomEnv) (midX midY d : ℚ) (st : ZoomState) : ZoomState :=
  let oldScale := st.scale
  let newScale := d / st.initialDistance * st.startScale
  let scale := clamp newScale MIN_ZOOM MAX_ZOOM
  let distanceFromCenterX := midX - env.clientWidth / 2
  let distanceFromCenterY := midY - env.clientHeight / 2
  let scaleDelta := scale / oldScale - 1
  { st with
    scale := scale
    hasManualZoom := true
    translate :=
      (st.translate.1 - distanceFromCenterX * scaleDelta / scale,
       st.translate.2 - distanceFromCenterY * scaleDelta / scale)
    isDragging := false }

/-- Source `#processDragGesture` (before the deferred transform update),
in the branch past the drag threshold: translation is the start
translation plus the finger delta divided by the scale. -/
def processDragGesture (x y : ℚ) (st : ZoomState) : ZoomState :=
  { st with
    hasDraggedBeyondThreshold := true
    translate :=
      (st.startTranslate.1 + (x - st.startPosition.1) / st.scale,
       st.startTranslate.2 + (y - st.startPosition.2) / st.scale) }

/-- Source `#handleDoubleTapFromTouch` (before the deferred transform
update): after manual zoom, reset to 1x centered; otherwise toggle
between 1x and the default 1.5x (with a 0.05 tolerance around 1x); when
the target is not 1x, correct the translation to center the zoom on the
tap point, else center the image. -/
def handleDoubleTap (env : ZoomEnv) (x y : ℚ) (st : ZoomState) : ZoomState :=
  let afterManual :=
    if st.hasManualZoom then
      ({ st with hasManualZoom := false, translate := (0, 0) }, MIN_ZOOM)
    else if |st.scale - MIN_ZOOM| < 1 / 20 then
      (st, DEFAULT_ZOOM)
    else
      (st, MIN_ZOOM)
  let st1 := afterManual.1
  let targetZoom := afterManual.2
  if targetZoom ≠ MIN_ZOOM then
    let oldScale := st1.scale
    let scale := min MAX_ZOOM targetZoom
    let distanceFromCenterX := x - env.clientWidth / 2
    let distanceFromCenterY := y - env.clientHeight / 2
    let scaleDelta := scale / oldScale - 1
    { st1 with
      scale := scale
      translate :=
        (st1.translate.1 - distanceFromCenterX * scaleDelta / scale,
         st1.translate.2 - distanceFromCenterY * scaleDelta / scale) }
  else
    { st1 with scale := targetZoom, translate := (0, 0) }

/-- Source `#resetZoom`: scale and translation back to the defaults, all
gesture bookkeeping cleared (`hasManualZoom` and `initialDistance` are
left as they are), CSS custom properties rewritten. -/
def resetZoom (st : ZoomState) : ZoomState :=
  { st with
    scale := DEFAULT_ZOOM
    startScale := DEFAULT_ZOOM
    translate := (0, 0)
    startPosition := (0, 0)
    startTranslate := (0, 0)
    isDragging := false
    lastTapTime := 0
    lastTapPosition := none
    hasDraggedBeyondThreshold := false
    cssScale := DEFAULT_ZOOM
    cssTranslate := (0, 0) }

/-- Source `#setupDialogCloseListener`: the enclosing zoom dialog's
`close` is overridden to run `#resetZoom` first and then the original
close. -/
def zoomDialogClose (st : ZoomState) : ZoomState :=
  resetZoom st

/-- The wrapper's gesture-level events. `pinchMove` carries the pinch
midpoint and current touch distance, `dragMove` the touch point,
`doubleTap` the tap point; `dialogClose` is the enclosing dialog's
overridden close. -/
inductive ZoomOp where
  | pinchStart (d : ℚ)
  | pinchMove (midX midY d : ℚ)
  | dragStart (t x y : ℚ)
  | dragMove (x y : ℚ)
  | doubleTap (x y : ℚ)
  | touchEnd
  | resize
  | dialogClose
  deriving Repr, DecidableEq

/-- One gesture event, including the transform update the handlers
request via `requestAnimationFrame` (the browser runs the frame before
the next gesture event is delivered). A drag move below the 10px
threshold returns before requesting an update; a drag start, pinch start
and the dialog-close reset request none. -/
def zoomStep (env : ZoomEnv) (st : ZoomState) : ZoomOp → ZoomState
  | .pinchStart d => startZoomGesture d st
  | .pinchMove midX midY d => updateTransform env (processZoomGesture env midX midY d st)
  | .dragStart t x y => startDragGesture t x y st
  | .dragMove x y =>
    let dx := x - st.startPosition.1
    let dy := y - st.startPosition.2
    if st.hasDraggedBeyondThreshold = false ∧ dx * dx + dy * dy < DRAG_THRESHOLD * DRAG_THRESHOLD then st
    else updateTransform env (processDragGesture x y st)
  | .doubleTap x y =>
    let st1 := handleDoubleTap env x y st
    updateTransform env { st1 with lastTapTime := 0, lastTapPosition := none }
  | .touchEnd => updateTransform env { st with isDragging := false, hasDraggedBeyondThreshold := false }
  | .resize => updateTransform env st
  | .dialogClose => zoomDialogClose st

/-- A run of gesture events from a freshly connected wrapper. -/
def runZoom (env : ZoomEnv) (ops : List ZoomOp) : ZoomState :=
  ops.foldl (zoomStep env) initZoomState

/-- The state invariant of claim C9: the scale stays in
`[MIN_ZOOM, MAX_ZOOM]` and at minimum zoom the translation is zero. -/
def ZoomInv (st : ZoomState) : Prop :=
  MIN_ZOOM ≤ st.scale ∧ st.scale ≤ MAX_ZOOM ∧ (st.scale = MIN_ZOOM → st.translate = (0, 0))

instance (st : ZoomState) : Decidable (ZoomInv st) := by
  unfold ZoomInv
  infer_instance

/-! ## Fetch failure handling (variant-picker.js, quick-add.js) -/

/-- Settlement of a JS `fetch` promise chain as the component observes
it: a successfully read response body, or a rejection carrying the
error's `name` (an abort surfaces as the name `AbortError`). -/
inductive JSFetchOutcome where
  | success (text : String)
  | rejected (errorName : String)
  deriving Repr, DecidableEq

/-- The piece of VariantPicker instance state the fetch chain mutates:
`#pendingRequestUrl`. -/
structure VPRequestState where
  pendingRequestUrl : Option String
  deriving Repr, DecidableEq

/-- A console record emitted by a handler. -/
inductive ConsoleEntry where
  | warn (msg : String)
  | logError (msg : String)
  deriving Repr, DecidableEq

/-- Source `fetchUpdatedSection` continuation (the `.then`/`.catch`
chain), with the DOM morphing of the success branch elided (claim C7 is
about the failure paths): success clears `#pendingRequestUrl`; the
`.catch` logs `console.warn` for an `AbortError` and `console.error`
otherwise, mutating nothing and never rethrowing. Returns the new state,
the console output and whether an error escaped to the caller. -/
def fetchUpdatedSectionContinuation (st : VPRequestState) :
    JSFetchOutcome → VPRequestState × List ConsoleEntry × Bool
  | .success _ => (⟨none⟩, [], false)
  | .rejected errorName =>
    (st,
     [if errorName = "AbortError" then .warn "Fetch aborted by user" else .logError errorName],
     false)

/-- Settlement of the `fetch` call inside QuickAdd's `fetchProductPage`:
an HTTP response (with its `ok` flag, status and body) or a rejection
with the error's `name`. -/
inductive QAFetchOutcome where
  | response (ok : Bool) (status : Nat) (text : String)
  | rejected (errorName : String)
  deriving Repr, DecidableEq

/-- Source `fetchProductPage`: an empty URL returns `null` up front; a
non-ok response raises an `Error` (whose name is not `AbortError`, so the
`catch` rethrows it); a rejection named `AbortError` is swallowed into
`null`; any other rejection is rethrown. `Except.error` is a rejection
escaping to the caller, `Except.ok` the returned document (its parsed
body text) or `null`. -/
def fetchProductPage (productPageUrl : String) (outcome : QAFetchOutcome) :
    Except String (Option String) :=
  if productPageUrl = "" then .ok none
  else
    match outcome with
    | .response ok status text =>
      if ok then .ok (some text)
      else .error ("Failed to fetch product page: HTTP error " ++ toString status)
    | .rejected errorName =>
      if errorName = "AbortError" then .ok none else .error errorName

/-- At-most-one-outstanding-fetch invariant of an abort-controller-owning
component: either nothing is in flight, or exactly the fetch owned by the
stored controller is. -/
def VPFetchInv (s : FetchLifecycle) : Prop :=
  s.inFlight = [] ∨ ∃ id, s.inFlight = [id] ∧ s.controller = some id

/-! ## Helper lemmas -/

theorem clamp_le_right (v lo hi : ℚ) : clamp v lo hi ≤ hi :=
  min_le_right _ _

theorem le_clamp_left (v lo hi : ℚ) (h : lo ≤ hi) : lo ≤ clamp v lo hi :=
  le_min (le_max_right v lo) h

theorem vpFetchStep_inv (s : FetchLifecycle) (op : FetchOp) (h : VPFetchInv s) :
    VPFetchInv (vpFetchStep s op) := by
  cases op with
  | issue =>
    rcases h with h | ⟨id, h1, h2⟩
    · refine Or.inr ⟨s.nextId, ?_, rfl⟩
      cases hc : s.controller <;> simp [vpFetchStep, hc, h]
    · refine Or.inr ⟨s.nextId, ?_, rfl⟩
      simp [vpFetchStep, h2, h1]
  | settle id' =>
    rcases h with h | ⟨id, h1, h2⟩
    · exact Or.inl (by simp [vpFetchStep, h])
    · by_cases hid : id = id'
      · exact Or.inl (by simp [vpFetchStep, h1, hid])
      · refine Or.inr ⟨id, ?_, h2⟩
        simp [vpFetchStep, h1, List.erase_cons, hid]

theorem vpFetchRun_foldl_inv (ops : List FetchOp) (s : FetchLifecycle) (h : VPFetchInv s) :
    VPFetchInv (ops.foldl vpFetchStep s) := by
  induction ops generalizing s with
  | nil => exact h
  | cons op rest ih => exact ih _ (vpFetchStep_inv s op h)

/-! ## Claim theorems -/

/-- C1 counterexample: the claim that every fetch-issuing component,
including PaginatedList and QuickAddComponent, keeps at most one
outstanding fetch per instance is false. A PaginatedList connected with a
card on page 2 and `data-last-page="3"` issues the next-page and the
previous-page fetches before either settles — two outstanding fetches and
no abort controller at all. A QuickAddComponent on which
`fetchProductPage` is called twice, after which the first (aborted)
call's `finally` nulls the shared controller, issues a third fetch
without aborting the second — again two outstanding fetches. -/
theorem c1_counterexample :
    (plConnectedCallbackFetches ⟨some (some 3), some [2]⟩ initFetchLifecycle).inFlight.length = 2 ∧
    ¬ (plConnectedCallbackFetches ⟨some (some 3), some [2]⟩ initFetchLifecycle).inFlight.length ≤ 1 ∧
    (qaFetchRun [.issue, .issue, .settle 0, .issue]).inFlight.length = 2 ∧
    ¬ (qaFetchRun [.issue, .issue, .settle 0, .issue]).inFlight.length ≤ 1 := by
  decide

/-- C1 amended: only VariantPicker maintains the bound. Its
`fetchUpdatedSection` aborts the fetch owned by its locally owned abort
controller before issuing a new one and its settle handlers never clear
the controller, so along every sequence of issue/settle events a
VariantPicker instance has at most one outstanding fetch. -/
theorem c1_amended (ops : List FetchOp) :
    VPFetchInv (vpFetchRun ops) ∧ (vpFetchRun ops).inFlight.length ≤ 1 := by
  have h := vpFetchRun_foldl_inv ops initFetchLifecycle (Or.inl rfl)
  refine ⟨h, ?_⟩
  rcases h with h | ⟨id, h1, _⟩
  · simp [vpFetchRun] at h ⊢
    simp [h]
  · simp [vpFetchRun] at h1 ⊢
    simp [h1]

/-- C2: handling a FilterUpdate event clears all cached pages — after the
`#handleFilterUpdate` handler runs, the `pages` map is empty (and both
pending-page resolvers have been released). -/
theorem c2_filter_update_clears_pages (st : PLState) :
    (plHandleFilterUpdate st).pages = [] ∧
    (plHandleFilterUpdate st).resolveNext = false ∧
    (plHandleFilterUpdate st).resolvePrev = false :=
  ⟨rfl, rfl, rfl⟩

/-- C3 counterexample: the claim that after `disconnectedCallback` runs
the `pages` map is empty is false — disconnecting an instance holding a
cached page leaves the cache exactly as it was. -/
theorem c3_counterexample :
    (plDisconnectedCallback ⟨[(1, "cached page")], false, false, true, true⟩).pages
      = [(1, "cached page")] ∧
    (plDisconnectedCallback ⟨[(1, "cached page")], false, false, true, true⟩).pages ≠ [] := by
  decide

/-- C3 amended: `disconnectedCallback` disconnects the infinity-scroll
observer and removes the document-level FilterUpdate listener, but does
not clear the `pages` cache; the cached pages survive in the instance
(released only with the element itself) and are emptied only by a filter
update. -/
theorem c3_amended (st : PLState) :
    (plDisconnectedCallback st).pages = st.pages ∧
    (plDisconnectedCallback st).observerActive = false ∧
    (plDisconnectedCallback st).filterListenerAttached = false :=
  ⟨rfl, rfl, rfl⟩

/-- C4 counterexample: the claim that two `toggleDisclosure` calls return
both `aria-expanded` and the content's inert state to their original
values is false when the start state is inconsistent: starting from
`aria-expanded="true"` with the content inert, the double toggle restores
`aria-expanded` but leaves the content non-inert. -/
theorem c4_counterexample :
    (toggleDisclosure ⟨some "Open", some "Close"⟩
        (toggleDisclosure ⟨some "Open", some "Close"⟩ ⟨some "true", none, true⟩)).ariaExpanded
      = some "true" ∧
    (toggleDisclosure ⟨some "Open", some "Close"⟩
        (toggleDisclosure ⟨some "Open", some "Close"⟩ ⟨some "true", none, true⟩)).inert
      = false ∧
    (⟨some "true", none, true⟩ : DisclosureState).inert = true := by
  decide

/-- C4 amended: from a start state whose trigger has `aria-expanded`
equal to "true" or "false", applying `toggleDisclosure` twice returns
`aria-expanded` to its original value unconditionally; the content's
inert state also returns to its original value provided the start state
is consistent (inert iff not expanded), which is how the component itself
leaves the pair after any toggle. -/
theorem c4_amended (d : DisclosureData) (st : DisclosureState)
    (hexp : st.ariaExpanded = some "true" ∨ st.ariaExpanded = some "false")
    (hcons : st.inert = decide (st.ariaExpanded ≠ some "true")) :
    (toggleDisclosure d (toggleDisclosure d st)).ariaExpanded = st.ariaExpanded ∧
    (toggleDisclosure d (toggleDisclosure d st)).inert = st.inert := by
  rcases hexp with h | h <;>
    simp [h] at hcons <;>
    simp [toggleDisclosure, h, hcons]

/-- C4 amended witness at a concrete consistent expanded state. -/
theorem c4_amended_witness :
    ((⟨some "true", none, false⟩ : DisclosureState).ariaExpanded = some "true" ∨
      (⟨some "true", none, false⟩ : DisclosureState).ariaExpanded = some "false") ∧
    (⟨some "true", none, false⟩ : DisclosureState).inert
      = decide ((⟨some "true", none, false⟩ : DisclosureState).ariaExpanded ≠ some "true") ∧
    ((toggleDisclosure ⟨some "Open", some "Close"⟩
        (toggleDisclosure ⟨some "Open", some "Close"⟩ ⟨some "true", none, false⟩)).ariaExpanded
      = (⟨some "true", none, false⟩ : DisclosureState).ariaExpanded ∧
     (toggleDisclosure ⟨some "Open", some "Close"⟩
        (toggleDisclosure ⟨some "Open", some "Close"⟩ ⟨some "true", none, false⟩)).inert
      = (⟨some "true", none, false⟩ : DisclosureState).inert) :=
  ⟨Or.inl rfl, by decide,
    c4_amended ⟨some "Open", some "Close"⟩ ⟨some "true", none, false⟩ (Or.inl rfl) (by decide)⟩

theorem modifyIdx_length {α : Type} (l : List α) (i : Nat) (f : α → α) :
    (modifyIdx l i f).length = l.length := by
  induction l generalizing i with
  | nil => rfl
  | cons a as ih =>
    cases i with
    | zero => rfl
    | succ n => simp [modifyIdx, ih]

theorem modifyIdx_getElem?_map {α β : Type} (proj : α → β) (f : α → α)
    (hf : ∀ a, proj (f a) = proj a) (l : List α) (i j : Nat) :
    ((modifyIdx l i f)[j]?).map proj = (l[j]?).map proj := by
  induction l generalizing i j with
  | nil => rfl
  | cons a as ih =>
    cases i with
    | zero =>
      cases j with
      | zero => simp [modifyIdx, hf]
      | succ m => simp [modifyIdx]
    | succ n =>
      cases j with
      | zero => simp [modifyIdx]
      | succ m => simp [modifyIdx, ih n m]

theorem clearPreviousFlags_length (rs : List Radio) (ci : List Nat) :
    (clearPreviousFlags rs ci).length = rs.length := by
  unfold clearPreviousFlags
  cases h1 : ci.head? <;> cases h2 : ci[1]? <;> simp [modifyIdx_length]

theorem clearPreviousFlags_getElem?_width (rs : List Radio) (ci : List Nat) (j : Nat) :
    ((clearPreviousFlags rs ci)[j]?).map Radio.parentWidth = (rs[j]?).map Radio.parentWidth := by
  unfold clearPreviousFlags
  cases h1 : ci.head? <;> cases h2 : ci[1]? <;>
    repeat (first
      | rfl
      | rw [modifyIdx_getElem?_map Radio.parentWidth
          (fun r => { r with previousChecked := false }) (fun _ => rfl)])

/-- C5 counterexample: the claim that the per-group checked indices are
used only to set the `--pill-width-current` and `--pill-width-previous`
CSS custom properties is false. Two groups with identical radios that
differ only in the stored checked index produce, for the same update,
identical pill custom properties but different radios: the
`data-previous-checked` flag lands on the radio named by the stored
index. -/
theorem c5_counterexample :
    (updateSelectedOption
        ⟨[⟨false, false, false, 10⟩, ⟨false, false, false, 10⟩, ⟨false, false, false, 10⟩],
          [0], none, none⟩ 2).pillWidthCurrent
      = (updateSelectedOption
        ⟨[⟨false, false, false, 10⟩, ⟨false, false, false, 10⟩, ⟨false, false, false, 10⟩],
          [1], none, none⟩ 2).pillWidthCurrent ∧
    (updateSelectedOption
        ⟨[⟨false, false, false, 10⟩, ⟨false, false, false, 10⟩, ⟨false, false, false, 10⟩],
          [0], none, none⟩ 2).pillWidthPrevious
      = (updateSelectedOption
        ⟨[⟨false, false, false, 10⟩, ⟨false, false, false, 10⟩, ⟨false, false, false, 10⟩],
          [1], none, none⟩ 2).pillWidthPrevious ∧
    (updateSelectedOption
        ⟨[⟨false, false, false, 10⟩, ⟨false, false, false, 10⟩, ⟨false, false, false, 10⟩],
          [0], none, none⟩ 2).radios
      ≠ (updateSelectedOption
        ⟨[⟨false, false, false, 10⟩, ⟨false, false, false, 10⟩, ⟨false, false, false, 10⟩],
          [1], none, none⟩ 2).radios := by
  decide

/-- C5 amended: after an `updateSelectedOption` on a radio of the group,
the per-group checked-indices array has length at most two, its first
element is the input index of the radio just checked and its second,
when present, is the previously checked one; the indices drive the
`--pill-width-current` pill-transition custom property on the fieldset —
but also the `data-current-checked` and `data-previous-checked` flags on
the group's radios, so they are not used solely for the CSS custom
properties. -/
theorem c5_amended (g : OptionGroup) (i : Nat) (h : i < g.radios.length) :
    (updateSelectedOption g i).checkedIndices.length ≤ 2 ∧
    (updateSelectedOption g i).checkedIndices.head? = some i ∧
    (updateSelectedOption g i).checkedIndices[1]? = g.checkedIndices.head? ∧
    (updateSelectedOption g i).pillWidthCurrent = (g.radios[i]?).map Radio.parentWidth := by
  have hidx : (updateSelectedOption g i).checkedIndices = (i :: g.checkedIndices).take 2 := rfl
  refine ⟨?_, ?_, ?_, ?_⟩
  · rw [hidx]
    simp
  · rw [hidx, List.take_succ_cons]
    rfl
  · rw [hidx, List.take_succ_cons]
    cases g.checkedIndices <;> rfl
  · have hw := clearPreviousFlags_getElem?_width g.radios g.checkedIndices i
    have hlen : (clearPreviousFlags g.radios g.checkedIndices).length = g.radios.length :=
      clearPreviousFlags_length g.radios g.checkedIndices
    cases hr : (clearPreviousFlags g.radios g.checkedIndices)[i]? with
    | none =>
      rw [List.getElem?_eq_none_iff] at hr
      omega
    | some r =>
      rw [hr] at hw
      simp only [updateSelectedOption]
      rw [hr, ← hw]
      rfl

/-- C5 amended witness at a one-radio group. -/
theorem c5_amended_witness :
    0 < (⟨[⟨false, false, false, 7⟩], [], none, none⟩ : OptionGroup).radios.length ∧
    ((updateSelectedOption ⟨[⟨false, false, false, 7⟩], [], none, none⟩ 0).checkedIndices.length ≤ 2 ∧
     (updateSelectedOption ⟨[⟨false, false, false, 7⟩], [], none, none⟩ 0).checkedIndices.head? = some 0 ∧
     (updateSelectedOption ⟨[⟨false, false, false, 7⟩], [], none, none⟩ 0).checkedIndices[1]?
       = (⟨[⟨false, false, false, 7⟩], [], none, none⟩ : OptionGroup).checkedIndices.head? ∧
     (updateSelectedOption ⟨[⟨false, false, false, 7⟩], [], none, none⟩ 0).pillWidthCurrent
       = ((⟨[⟨false, false, false, 7⟩], [], none, none⟩ : OptionGroup).radios[0]?).map Radio.parentWidth) :=
  ⟨by decide, c5_amended ⟨[⟨false, false, false, 7⟩], [], none, none⟩ 0 (by decide)⟩

/-- C6: when the zoom dialog enclosing a DragZoomWrapper is closed, the
overridden close runs `#resetZoom`, so whatever pinch, drag or double-tap
gestures ran while the dialog was open, the scale is back at the default
zoom `DEFAULT_ZOOM = 3/2` and the translation at `(0, 0)`. -/
theorem c6_dialog_close_resets_zoom (env : ZoomEnv) (ops : List ZoomOp) :
    (runZoom env (ops ++ [ZoomOp.dialogClose])).scale = DEFAULT_ZOOM ∧
    (runZoom env (ops ++ [ZoomOp.dialogClose])).translate = (0, 0) ∧
    DEFAULT_ZOOM = 3 / 2 := by
  unfold runZoom
  rw [List.foldl_append]
  exact ⟨rfl, rfl, rfl⟩

/-- C7: a fetch failing with an abort is a benign no-op — VariantPicker's
catch logs a `console.warn` without touching instance state or
rethrowing, and QuickAdd's `fetchProductPage` returns `null`; any other
failure is logged by VariantPicker (`console.error`, no rethrow) or
rethrown by QuickAdd to its caller, including the `Error` raised on a
non-ok HTTP response. -/
theorem c7_fetch_failure_handling (st : VPRequestState) (errorName url : String)
    (status : Nat) (text : String)
    (hname : errorName ≠ "AbortError") (hurl : url ≠ "") :
    fetchUpdatedSectionContinuation st (.rejected "AbortError")
      = (st, [ConsoleEntry.warn "Fetch aborted by user"], false) ∧
    fetchUpdatedSectionContinuation st (.rejected errorName)
      = (st, [ConsoleEntry.logError errorName], false) ∧
    fetchProductPage url (.rejected "AbortError") = .ok none ∧
    fetchProductPage url (.rejected errorName) = .error errorName ∧
    fetchProductPage url (.response false status text)
      = .error ("Failed to fetch product page: HTTP error " ++ toString status) := by
  refine ⟨?_, ?_, ?_, ?_, ?_⟩ <;>
    simp [fetchUpdatedSectionContinuation, fetchProductPage, hname, hurl]

/-- C7 witness at a concrete failing URL and error. -/
theorem c7_fetch_failure_handling_witness :
    ("TypeError" : String) ≠ "AbortError" ∧ ("https" : String) ≠ "" ∧
    (fetchUpdatedSectionContinuation ⟨some "u"⟩ (.rejected "AbortError")
       = (⟨some "u"⟩, [ConsoleEntry.warn "Fetch aborted by user"], false) ∧
     fetchUpdatedSectionContinuation ⟨some "u"⟩ (.rejected "TypeError")
       = (⟨some "u"⟩, [ConsoleEntry.logError "TypeError"], false) ∧
     fetchProductPage "https" (.rejected "AbortError") = .ok none ∧
     fetchProductPage "https" (.rejected "TypeError") = .error "TypeError" ∧
     fetchProductPage "https" (.response false 500 "")
       = .error ("Failed to fetch product page: HTTP error " ++ toString 500)) :=
  ⟨by decide, by decide,
    c7_fetch_failure_handling ⟨some "u"⟩ "TypeError" "https" 500 "" (by decide) (by decide)⟩

/-- C8 counterexample: the claim that after any public operation the
input's value is at least `min` (and at most `max`) is false when the
entered value does not parse as an integer: with `min="1"`, `max="10"`,
setting the input to an empty or non-numeric string leaves the value
non-numeric (`parseInt` is `NaN`, so neither comparison fires) and the
dispatched event carries `NaN` rather than a clamped value. -/
theorem c8_counterexample :
    (applyQuantityOp (some 1) (some 10) (some 5) (.set none)).1 = none ∧
    (∀ v : Int, ¬ ((applyQuantityOp (some 1) (some 10) (some 5) (.set none)).1 = some v ∧ 1 ≤ v)) ∧
    (applyQuantityOp (some 1) (some 10) (some 5) (.set none)).2 = none := by
  refine ⟨rfl, ?_, rfl⟩
  rintro v ⟨hv, -⟩
  simp [applyQuantityOp, checkQuantityRules, rawValueAfter, jsLtOpt, jsGtOpt] at hv

/-- C8 amended: provided the input's value parses as an integer after the
operation's raw update and `min ≤ max` whenever both attributes parse,
the final value satisfies the present bounds (at least `min`, at most
`max`) and the dispatched `QuantitySelectorUpdateEvent` carries exactly
that final clamped value. -/
theorem c8_amended (mi ma st : Option Int) (op : QuantityOp) (v : Int)
    (hraw : rawValueAfter st op = some v)
    (hcompat : ∀ m M : Int, mi = some m → ma = some M → m ≤ M) :
    (∀ m : Int, mi = some m → ∃ u : Int, (applyQuantityOp mi ma st op).1 = some u ∧ m ≤ u) ∧
    (∀ M : Int, ma = some M → ∃ u : Int, (applyQuantityOp mi ma st op).1 = some u ∧ u ≤ M) ∧
    (applyQuantityOp mi ma st op).2 = (applyQuantityOp mi ma st op).1 := by
  refine ⟨?_, ?_, rfl⟩
  · rintro m rfl
    have hmM := hcompat m
    cases ma with
    | none =>
      simp only [applyQuantityOp, checkQuantityRules, hraw, jsLtOpt, jsGtOpt]
      by_cases hlt : v < m <;> simp [hlt] <;> omega
    | some M =>
      have hle : m ≤ M := hcompat m M rfl rfl
      simp only [applyQuantityOp, checkQuantityRules, hraw, jsLtOpt, jsGtOpt]
      by_cases hgt : M < v <;> by_cases hlt : v < m <;> simp [hgt, hlt] <;> omega
  · rintro M rfl
    cases mi with
    | none =>
      simp only [applyQuantityOp, checkQuantityRules, hraw, jsLtOpt, jsGtOpt]
      by_cases hgt : M < v <;> simp [hgt] <;> omega
    | some m =>
      have hle : m ≤ M := hcompat m M rfl rfl
      simp only [applyQuantityOp, checkQuantityRules, hraw, jsLtOpt, jsGtOpt]
      by_cases hgt : M < v <;> by_cases hlt : v < m <;> simp [hgt, hlt] <;> omega

/-- C8 amended witness: entering 0 with `min="1"`, `max="10"` clamps to 1
and the event carries 1. -/
theorem c8_amended_witness :
    rawValueAfter (some 5) (QuantityOp.set (some 0)) = some 0 ∧
    (∀ m M : Int, (some 1 : Option Int) = some m → (some 10 : Option Int) = some M → m ≤ M) ∧
    ((∀ m : Int, (some 1 : Option Int) = some m →
        ∃ u : Int, (applyQuantityOp (some 1) (some 10) (some 5) (.set (some 0))).1 = some u ∧ m ≤ u) ∧
     (∀ M : Int, (some 10 : Option Int) = some M →
        ∃ u : Int, (applyQuantityOp (some 1) (some 10) (some 5) (.set (some 0))).1 = some u ∧ u ≤ M) ∧
     (applyQuantityOp (some 1) (some 10) (some 5) (.set (some 0))).2
       = (applyQuantityOp (some 1) (some 10) (some 5) (.set (some 0))).1) :=
  ⟨rfl, by rintro m M ⟨rfl⟩ ⟨rfl⟩; omega,
    c8_amended (some 1) (some 10) (some 5) (.set (some 0)) 0 rfl
      (by rintro m M ⟨rfl⟩ ⟨rfl⟩; omega)⟩

theorem zoomInv_constrain (env : ZoomEnv) (st : ZoomState)
    (h1 : env.clientWidth ≠ 0) (h2 : env.clientHeight ≠ 0) (h3 : env.hasImage = true) :
    ZoomInv (constrainTranslation env st) := by
  have h15 : (MIN_ZOOM : ℚ) ≤ MAX_ZOOM := by norm_num [MIN_ZOOM, MAX_ZOOM]
  unfold ZoomInv constrainTranslation
  split_ifs with hg hle
  · exact absurd hg (by simp [h1, h2, h3])
  · exact ⟨le_clamp_left _ _ _ h15, clamp_le_right _ _ _, fun _ => rfl⟩
  · exact ⟨le_clamp_left _ _ _ h15, clamp_le_right _ _ _,
      fun heq => absurd (le_of_eq heq) hle⟩

theorem zoomInv_updateTransform (env : ZoomEnv) (st : ZoomState)
    (h1 : env.clientWidth ≠ 0) (h2 : env.clientHeight ≠ 0) (h3 : env.hasImage = true) :
    ZoomInv (updateTransform env st) :=
  zoomInv_constrain env st h1 h2 h3

theorem zoomInv_resetZoom (st : ZoomState) : ZoomInv (resetZoom st) := by
  refine ⟨?_, ?_, ?_⟩
  · norm_num [resetZoom, DEFAULT_ZOOM, MIN_ZOOM]
  · norm_num [resetZoom, DEFAULT_ZOOM, MAX_ZOOM]
  · intro heq
    exact absurd heq (by norm_num [resetZoom, DEFAULT_ZOOM, MIN_ZOOM])

theorem zoomInv_step (env : ZoomEnv) (st : ZoomState) (op : ZoomOp)
    (h1 : env.clientWidth ≠ 0) (h2 : env.clientHeight ≠ 0) (h3 : env.hasImage = true)
    (hst : ZoomInv st) : ZoomInv (zoomStep env st op) := by
  cases op with
  | pinchStart d => exact hst
  | pinchMove midX midY d => exact zoomInv_updateTransform env _ h1 h2 h3
  | dragStart t x y => exact hst
  | dragMove x y =>
    simp only [zoomStep]
    split_ifs with hc
    · exact hst
    · exact zoomInv_updateTransform env _ h1 h2 h3
  | doubleTap x y => exact zoomInv_updateTransform env _ h1 h2 h3
  | touchEnd => exact zoomInv_updateTransform env _ h1 h2 h3
  | resize => exact zoomInv_updateTransform env _ h1 h2 h3
  | dialogClose => exact zoomInv_resetZoom st

theorem zoomInv_foldl (env : ZoomEnv)
    (h1 : env.clientWidth ≠ 0) (h2 : env.clientHeight ≠ 0) (h3 : env.hasImage = true)
    (ops : List ZoomOp) (st : ZoomState) (hst : ZoomInv st) :
    ZoomInv (ops.foldl (zoomStep env) st) := by
  induction ops generalizing st with
  | nil => exact hst
  | cons op rest ih => exact ih _ (zoomInv_step env st op h1 h2 h3 hst)

/-- C9: along every gesture run of a DragZoomWrapper whose layout box is
nonempty and which contains an image, the zoom scale stays within
`[MIN_ZOOM, MAX_ZOOM] = [1, 5]` and whenever the scale is at the minimum
zoom the translation offset is exactly `(0, 0)` — every transform update
clamps the scale and, at minimum zoom, zeroes the translation. -/
theorem c9_zoom_invariant (env : ZoomEnv)
    (h1 : env.clientWidth ≠ 0) (h2 : env.clientHeight ≠ 0) (h3 : env.hasImage = true)
    (ops : List ZoomOp) : ZoomInv (runZoom env ops) := by
  have hinit : ZoomInv initZoomState := by
    refine ⟨?_, ?_, ?_⟩
    · norm_num [initZoomState, DEFAULT_ZOOM, MIN_ZOOM]
    · norm_num [initZoomState, DEFAULT_ZOOM, MAX_ZOOM]
    · intro heq
      exact absurd heq (by norm_num [initZoomState, DEFAULT_ZOOM, MIN_ZOOM])
  exact zoomInv_foldl env h1 h2 h3 ops initZoomState hinit

/-- C9 witness: a concrete pinch, drag and double-tap run in a 2x2 box. -/
theorem c9_zoom_invariant_witness :
    ((⟨2, 2, 2, 2, 4, 4, true⟩ : ZoomEnv).clientWidth ≠ 0 ∧
     (⟨2, 2, 2, 2, 4, 4, true⟩ : ZoomEnv).clientHeight ≠ 0 ∧
     (⟨2, 2, 2, 2, 4, 4, true⟩ : ZoomEnv).hasImage = true) ∧
    ZoomInv (runZoom ⟨2, 2, 2, 2, 4, 4, true⟩
      [.pinchStart 1, .pinchMove 0 0 3, .dragStart 0 5 5, .dragMove 30 30,
       .touchEnd, .doubleTap 1 1, .resize]) :=
  ⟨by refine ⟨?_, ?_, rfl⟩ <;> norm_num,
    c9_zoom_invariant ⟨2, 2, 2, 2, 4, 4, true⟩ (by norm_num) (by norm_num) rfl
      [.pinchStart 1, .pinchMove 0 0 3, .dragStart 0 5 5, .dragMove 30 30,
       .touchEnd, .doubleTap 1 1, .resize]⟩

/-- C10: a page is fetched and stored in the `pages` cache only when
`data-last-page` is present (here: parses to a number `n`) and the page
number lies within `[1, n]`; out-of-range requests leave the state
untouched (silently skipped), and every key of the cache after the call
either was already cached or is an integer between 1 and the `lastPage`
value current at insertion time. -/
theorem c10_page_cache_range (env : PLEnv) (st : PLState) (k : Int) (content : String) (n : Int)
    (h : env.lastPage = some (some n)) :
    (plShouldUsePage env (some k) = false → plFetchSpecificPage env st k content = st) ∧
    (plShouldUsePage env (some k) = true →
      1 ≤ k ∧ k ≤ n ∧ (plFetchSpecificPage env st k content).pages = pagesSet st.pages k content) ∧
    (∀ key ∈ (plFetchSpecificPage env st k content).pages.map Prod.fst,
      key ∈ st.pages.map Prod.fst ∨ (1 ≤ key ∧ key ≤ n)) := by
  have hiff : plShouldUsePage env (some k) = true ↔ 1 ≤ k ∧ k ≤ n := by
    simp only [plShouldUsePage, h, jsNumGt]
    split_ifs with hk1 hk2
    · simp only [false_iff]
      omega
    · simp only [decide_eq_true_eq] at hk2
      simp only [false_iff]
      omega
    · simp only [decide_eq_true_eq] at hk2
      simp only [true_iff]
      omega
  refine ⟨?_, ?_, ?_⟩
  · intro hf
    simp [plFetchSpecificPage, hf]
  · intro ht
    obtain ⟨hk1, hk2⟩ := hiff.mp ht
    exact ⟨hk1, hk2, by simp [plFetchSpecificPage, ht]⟩
  · intro key hkey
    by_cases hs : plShouldUsePage env (some k) = true
    · obtain ⟨hk1, hk2⟩ := hiff.mp hs
      rw [show plFetchSpecificPage env st k content
            = { st with pages := pagesSet st.pages k content } by
          simp [plFetchSpecificPage, hs]] at hkey
      rcases List.mem_map.mp hkey with ⟨kv, hkv, rfl⟩
      rcases List.mem_cons.mp hkv with rfl | hkv'
      · exact Or.inr ⟨hk1, hk2⟩
      · exact Or.inl (List.mem_map_of_mem _ (List.mem_of_mem_filter hkv'))
    · rw [show plFetchSpecificPage env st k content = st by
          simp [plFetchSpecificPage, hs]] at hkey
      exact Or.inl hkey

/-- C10 witness: with `data-last-page="3"`, requesting page 5 is
silently skipped and the empty cache keeps only in-range keys. -/
theorem c10_page_cache_range_witness :
    (⟨some (some 3), some [2]⟩ : PLEnv).lastPage = some (some 3) ∧
    ((plShouldUsePage ⟨some (some 3), some [2]⟩ (some 5) = false →
        plFetchSpecificPage ⟨some (some 3), some [2]⟩ ⟨[], false, false, true, true⟩ 5 "frag"
          = ⟨[], false, false, true, true⟩) ∧
     (plShouldUsePage ⟨some (some 3), some [2]⟩ (some 5) = true →
        1 ≤ (5 : Int) ∧ (5 : Int) ≤ 3 ∧
        (plFetchSpecificPage ⟨some (some 3), some [2]⟩ ⟨[], false, false, true, true⟩ 5 "frag").pages
          = pagesSet [] 5 "frag") ∧
     (∀ key ∈ (plFetchSpecificPage ⟨some (some 3), some [2]⟩
          ⟨[], false, false, true, true⟩ 5 "frag").pages.map Prod.fst,
        key ∈ ([] : List (Int × String)).map Prod.fst ∨ (1 ≤ key ∧ key ≤ 3))) :=
  ⟨rfl, c10_page_cache_range ⟨some (some 3), some [2]⟩ ⟨[], false, false, true, true⟩ 5 "frag" 3 rfl⟩
